import Mathlib

/-!
# Verification of the llm-fs span tracing core

Shallow embedding of the span model, the dual-indexed `SpanStore`
(`crates/storage/src/lib.rs`) and the instrumented proxy handlers
(`crates/proxy/src/lib.rs`), together with proofs of the specified
properties.

Maps (`std::collections::HashMap`) are embedded as association lists with
first-occurrence lookup; `HashMap::insert` replaces the first binding or
appends, `remove` drops every binding of the key.  All statements about map
contents are order-insensitive (membership / lookup), so the list
representation is faithful.
-/

set_option maxHeartbeats 1000000

abbrev SpanId := Nat
abbrev TraceId := Nat
abbrev Time := Int

/-- Modelled from the spec: the `trace` crate's `SpanStatus` (the crate is not
under `src/`).  Tagged union `Running { started_at }`,
`Completed { started_at, ended_at }`, `Failed { started_at, ended_at, error }`. -/
inductive SpanStatus where
| running (started_at : Time)
| completed (started_at ended_at : Time)
| failed (started_at ended_at : Time) (error : String)
deriving DecidableEq, Repr

/-- Modelled from the spec: the `trace` crate's `SpanMetadata` — optional
`model`, `input_tokens`, `output_tokens`. -/
structure SpanMetadata where
  model : Option String
  input_tokens : Option Nat
  output_tokens : Option Nat
deriving DecidableEq, Repr

/-- Modelled from the spec: the `trace` crate's `Span` — `id`, `trace_id`,
optional `parent_span_id`, `name`, `status`, `metadata`. -/
structure Span where
  id : SpanId
  trace_id : TraceId
  parent_span_id : Option SpanId
  name : String
  status : SpanStatus
  metadata : SpanMetadata
deriving DecidableEq, Repr

/-- Modelled from the spec: `Span::new(trace_id, parent_span_id, name)` sets
`status = Running { started_at = now }` and empty metadata.  The fresh id and
the clock reading are passed explicitly. -/
def Span.new (id : SpanId) (trace_id : TraceId) (parent_span_id : Option SpanId)
    (name : String) (now : Time) : Span :=
  { id := id, trace_id := trace_id, parent_span_id := parent_span_id,
    name := name, status := .running now,
    metadata := { model := none, input_tokens := none, output_tokens := none } }

/-- Modelled from the spec: `Span::complete()` — if `Running`, transition to
`Completed { started_at, ended_at = now }`; no-op when already terminal. -/
def Span.complete (sp : Span) (now : Time) : Span :=
  match sp.status with
  | .running started_at => { sp with status := .completed started_at now }
  | _ => sp

/-- Modelled from the spec: `Span::fail(error)` — if `Running`, transition to
`Failed { started_at, ended_at = now, error }`; no-op when already terminal. -/
def Span.fail (sp : Span) (now : Time) (error : String) : Span :=
  match sp.status with
  | .running started_at => { sp with status := .failed started_at now error }
  | _ => sp

/-- `started_at` of a span, read from whichever status variant is active
(as in `filter_spans`). -/
def Span.startedAt (sp : Span) : Time :=
  match sp.status with
  | .running s => s
  | .completed s _ => s
  | .failed s _ _ => s

/-- A status is terminal when it is `Completed` or `Failed`. -/
def SpanStatus.isTerminal : SpanStatus → Bool
  | .running _ => false
  | _ => true

/-! ## Association-list maps (embedding of `HashMap`) -/

/-- First-occurrence lookup (`HashMap::get`). -/
def alookup {α β : Type} [DecidableEq α] : List (α × β) → α → Option β
  | [], _ => none
  | (k, v) :: rest, key => if k = key then some v else alookup rest key

/-- `HashMap::insert`: replace the first binding of the key, or append. -/
def aset {α β : Type} [DecidableEq α] : List (α × β) → α → β → List (α × β)
  | [], key, val => [(key, val)]
  | (k, v) :: rest, key, val =>
    if k = key then (key, val) :: rest else (k, v) :: aset rest key val

/-- `HashMap::remove`: drop every binding of the key. -/
def aremove {α β : Type} [DecidableEq α] (l : List (α × β)) (key : α) : List (α × β) :=
  l.filter (fun e => e.1 ≠ key)

@[simp] theorem alookup_nil {α β : Type} [DecidableEq α] (key : α) :
    alookup ([] : List (α × β)) key = none := rfl

@[simp] theorem alookup_cons {α β : Type} [DecidableEq α] (k : α) (v : β)
    (rest : List (α × β)) (key : α) :
    alookup ((k, v) :: rest) key = if k = key then some v else alookup rest key := rfl

theorem alookup_aset_self {α β : Type} [DecidableEq α] (l : List (α × β)) (k : α) (v : β) :
    alookup (aset l k v) k = some v := by
  induction l with
  | nil => simp [aset]
  | cons e rest ih =>
    obtain ⟨k', v'⟩ := e
    by_cases h : k' = k <;> simp [aset, h, ih]

theorem alookup_aset_ne {α β : Type} [DecidableEq α] (l : List (α × β)) (k k' : α) (v : β)
    (h : k ≠ k') : alookup (aset l k v) k' = alookup l k' := by
  induction l with
  | nil => simp [aset, alookup, h]
  | cons e rest ih =>
    obtain ⟨k0, v0⟩ := e
    by_cases h0 : k0 = k
    · subst h0; simp [aset, alookup, h]
    · simp only [aset, if_neg h0, alookup_cons, ih]

theorem alookup_aremove {α β : Type} [DecidableEq α] (l : List (α × β)) (k k' : α) :
    alookup (aremove l k) k' = if k = k' then none else alookup l k' := by
  induction l with
  | nil => simp [aremove]
  | cons e rest ih =>
    obtain ⟨k0, v0⟩ := e
    by_cases h0 : k0 = k <;> by_cases h1 : k = k' <;>
      simp_all [aremove, List.filter_cons, alookup]

theorem alookup_aremove_self {α β : Type} [DecidableEq α] (l : List (α × β)) (k : α) :
    alookup (aremove l k) k = none := by
  simp [alookup_aremove]

theorem alookup_aremove_ne {α β : Type} [DecidableEq α] (l : List (α × β)) (k k' : α)
    (h : k ≠ k') : alookup (aremove l k) k' = alookup l k' := by
  simp [alookup_aremove, h]

theorem alookup_mem {α β : Type} [DecidableEq α] {l : List (α × β)} {k : α} {v : β}
    (h : alookup l k = some v) : (k, v) ∈ l := by
  induction l with
  | nil => simp [alookup] at h
  | cons e rest ih =>
    obtain ⟨k', v'⟩ := e
    by_cases hk : k' = k
    · subst hk
      simp [alookup] at h
      subst h; exact List.mem_cons_self _ _
    · simp [alookup, hk] at h
      exact List.mem_cons_of_mem _ (ih h)

theorem alookup_isSome_iff_mem_keys {α β : Type} [DecidableEq α] (l : List (α × β)) (k : α) :
    (alookup l k).isSome = true ↔ k ∈ l.map Prod.fst := by
  induction l with
  | nil => simp [alookup]
  | cons e rest ih =>
    obtain ⟨k', v'⟩ := e
    by_cases hk : k' = k
    · simp [alookup, hk, ih]
    · have hk' : ¬k = k' := fun h => hk h.symm
      simp [alookup, hk, hk', ih]

/-! ## The span store (`crates/storage/src/lib.rs`) -/

/-- `SpanFilter`: optional criteria for querying spans. -/
structure SpanFilter where
  model : Option String := none
  status : Option String := none
  since : Option Time := none
  until_ : Option Time := none  -- source field name: until
  name_contains : Option String := none
deriving DecidableEq, Repr

/-- `SpanStore`: primary index `spans : HashMap<SpanId, Span>` and secondary
index `traces : HashMap<TraceId, Vec<SpanId>>`. -/
structure SpanStore where
  spans : List (SpanId × Span)
  traces : List (TraceId × List SpanId)
deriving DecidableEq, Repr

/-- `SpanStore::new()` / `Default::default()`. -/
def SpanStore.empty : SpanStore := { spans := [], traces := [] }

/-- `SpanStore::insert`: record under both indexes
(`self.spans.insert(id, span); self.traces.entry(trace_id).or_default().push(id)`). -/
def SpanStore.insert (st : SpanStore) (sp : Span) : SpanStore :=
  { spans := aset st.spans sp.id sp,
    traces := aset st.traces sp.trace_id ((alookup st.traces sp.trace_id).getD [] ++ [sp.id]) }

/-- `SpanStore::get`. -/
def SpanStore.get (st : SpanStore) (id : SpanId) : Option Span :=
  alookup st.spans id

/-- `SpanStore::spans_for_trace`: the recorded id sequence, `[]` when unknown. -/
def SpanStore.spans_for_trace (st : SpanStore) (trace_id : TraceId) : List SpanId :=
  (alookup st.traces trace_id).getD []

/-- `SpanStore::trace_ids`: the keys of the secondary index. -/
def SpanStore.trace_ids (st : SpanStore) : List TraceId :=
  st.traces.map Prod.fst

/-- `SpanStore::all_spans`: the values of the primary index. -/
def SpanStore.all_spans (st : SpanStore) : List Span :=
  st.spans.map Prod.snd

/-- `SpanStore::complete(id)`: `get_mut` then `Span::complete`; returns whether
the id existed. -/
def SpanStore.complete (st : SpanStore) (now : Time) (id : SpanId) : SpanStore × Bool :=
  match alookup st.spans id with
  | some sp => ({ st with spans := aset st.spans id (sp.complete now) }, true)
  | none => (st, false)

/-- `SpanStore::fail(id, error)`: `get_mut` then `Span::fail`; returns whether
the id existed. -/
def SpanStore.fail (st : SpanStore) (now : Time) (id : SpanId) (error : String) :
    SpanStore × Bool :=
  match alookup st.spans id with
  | some sp => ({ st with spans := aset st.spans id (sp.fail now error) }, true)
  | none => (st, false)

/-- `SpanStore::span_count`. -/
def SpanStore.span_count (st : SpanStore) : Nat := st.spans.length

/-- `SpanStore::trace_count`. -/
def SpanStore.trace_count (st : SpanStore) : Nat := st.traces.length

/-- `SpanStore::delete_span`: remove from the primary index, drop the id from
its trace's sequence (`retain`), and remove the trace entry if the sequence
became empty.  Returns whether a span was removed. -/
def SpanStore.delete_span (st : SpanStore) (id : SpanId) : SpanStore × Bool :=
  match alookup st.spans id with
  | some sp =>
    let spans' := aremove st.spans id
    let traces' :=
      match alookup st.traces sp.trace_id with
      | some span_ids =>
        let kept := span_ids.filter (fun sid => sid ≠ id)
        if kept.isEmpty then aremove st.traces sp.trace_id
        else aset st.traces sp.trace_id kept
      | none => st.traces
    ({ spans := spans', traces := traces' }, true)
  | none => (st, false)

/-- `SpanStore::delete_trace`: remove the trace's index entry and every span it
lists; returns the number of ids in that entry (0 when the trace is unknown). -/
def SpanStore.delete_trace (st : SpanStore) (trace_id : TraceId) : SpanStore × Nat :=
  match alookup st.traces trace_id with
  | some span_ids =>
    ({ spans := span_ids.foldl (fun sps id => aremove sps id) st.spans,
       traces := aremove st.traces trace_id }, span_ids.length)
  | none => (st, 0)

/-- `SpanStore::clear`. -/
def SpanStore.clear (_st : SpanStore) : SpanStore := SpanStore.empty

/-- Substring test on character lists: some split `s = l ++ pat ++ r` exists.
Embeds Rust's `str::contains` with a string pattern. -/
def listContainsSub (pat : List Char) : List Char → Bool
  | [] => pat.isEmpty
  | c :: rest => pat.isPrefixOf (c :: rest) || listContainsSub pat rest

/-- Rust `String::contains(&str)`. -/
def strContains (s pat : String) : Bool := listContainsSub pat.data s.data

/-- The status name used by `filter_spans` ("running" / "completed" / "failed"). -/
def SpanStatus.name : SpanStatus → String
  | .running _ => "running"
  | .completed _ _ => "completed"
  | .failed _ _ _ => "failed"

/-- `filter_spans` model criterion: `match &span.metadata.model { Some(m) if m == model => {}, _ => return false }`. -/
def matchesModel (filter : SpanFilter) (sp : Span) : Bool :=
  match filter.model with
  | some model =>
    match sp.metadata.model with
    | some m => m = model
    | none => false
  | none => true

/-- `filter_spans` status criterion: variant name equality. -/
def matchesStatus (filter : SpanFilter) (sp : Span) : Bool :=
  match filter.status with
  | some status => sp.status.name = status
  | none => true

/-- `filter_spans` since criterion: `if started_at < since { return false }`. -/
def matchesSince (filter : SpanFilter) (sp : Span) : Bool :=
  match filter.since with
  | some since => !(sp.startedAt < since)
  | none => true

/-- `filter_spans` until criterion: `if started_at > until { return false }`. -/
def matchesUntil (filter : SpanFilter) (sp : Span) : Bool :=
  match filter.until_ with
  | some until_ => !(sp.startedAt > until_)
  | none => true

/-- `filter_spans` name criterion: `span.name.contains(name_contains)`. -/
def matchesName (filter : SpanFilter) (sp : Span) : Bool :=
  match filter.name_contains with
  | some name_contains => strContains sp.name name_contains
  | none => true

/-- The filter predicate of `SpanStore::filter_spans`: the source's
early-return chain is the conjunction of the five criteria. -/
def spanMatches (filter : SpanFilter) (sp : Span) : Bool :=
  matchesModel filter sp && matchesStatus filter sp && matchesSince filter sp &&
    matchesUntil filter sp && matchesName filter sp

/-- `SpanStore::filter_spans`: scan of `spans.values()` keeping matches. -/
def SpanStore.filter_spans (st : SpanStore) (filter : SpanFilter) : List Span :=
  st.all_spans.filter (spanMatches filter)

/-! ## Filter conjunction (C2) -/

theorem listContainsSub_iff (pat s : List Char) :
    listContainsSub pat s = true ↔ pat <:+: s := by
  induction s with
  | nil =>
    simp [listContainsSub, List.isEmpty_iff, List.infix_nil]
  | cons c rest ih =>
    simp [listContainsSub, List.infix_cons_iff, ih, List.isPrefixOf_iff_prefix]

/-- The specification's reading of filter matching: every set criterion holds —
exact model equality (unset span model never matches), status-name equality,
inclusive `since`/`until` bounds on `started_at`, substring on `name`. -/
def SpanFilter.Matches (f : SpanFilter) (sp : Span) : Prop :=
  (∀ m, f.model = some m → sp.metadata.model = some m) ∧
  (∀ s, f.status = some s → sp.status.name = s) ∧
  (∀ a, f.since = some a → a ≤ sp.startedAt) ∧
  (∀ b, f.until_ = some b → sp.startedAt ≤ b) ∧
  (∀ p, f.name_contains = some p → p.data <:+: sp.name.data)

theorem matchesModel_iff (f : SpanFilter) (sp : Span) :
    matchesModel f sp = true ↔ ∀ m, f.model = some m → sp.metadata.model = some m := by
  unfold matchesModel
  cases f.model <;> cases hm : sp.metadata.model <;> simp [hm]

theorem matchesStatus_iff (f : SpanFilter) (sp : Span) :
    matchesStatus f sp = true ↔ ∀ s, f.status = some s → sp.status.name = s := by
  unfold matchesStatus
  cases f.status <;> simp

theorem matchesSince_iff (f : SpanFilter) (sp : Span) :
    matchesSince f sp = true ↔ ∀ a, f.since = some a → a ≤ sp.startedAt := by
  unfold matchesSince
  cases f.since <;> simp [not_lt]

theorem matchesUntil_iff (f : SpanFilter) (sp : Span) :
    matchesUntil f sp = true ↔ ∀ b, f.until_ = some b → sp.startedAt ≤ b := by
  unfold matchesUntil
  cases f.until_ <;> simp [not_lt]

theorem matchesName_iff (f : SpanFilter) (sp : Span) :
    matchesName f sp = true ↔ ∀ p, f.name_contains = some p → p.data <:+: sp.name.data := by
  unfold matchesName
  cases f.name_contains <;> simp [strContains, listContainsSub_iff]

theorem spanMatches_iff (f : SpanFilter) (sp : Span) :
    spanMatches f sp = true ↔ f.Matches sp := by
  unfold spanMatches SpanFilter.Matches
  simp only [Bool.and_eq_true, matchesModel_iff, matchesStatus_iff, matchesSince_iff,
    matchesUntil_iff, matchesName_iff]
  tauto

/-- C2: `filter_spans` returns exactly the stored spans satisfying every set
criterion (model exact equality, spans with unset model never matching; status
variant-name equality; inclusive since/until bounds on `started_at`; name
substring), and the all-unset filter returns every stored span exactly once
(it returns the full `all_spans` enumeration). -/
theorem C2_filter_conjunction (st : SpanStore) (f : SpanFilter) (sp : Span) :
    (sp ∈ st.filter_spans f ↔ sp ∈ st.all_spans ∧ f.Matches sp) ∧
    st.filter_spans {} = st.all_spans := by
  constructor
  · simp [SpanStore.filter_spans, List.mem_filter, spanMatches_iff]
  · rw [SpanStore.filter_spans]
    exact List.filter_eq_self.mpr (fun x _ => rfl)

/-! ## Lifecycle idempotence at the store interface (C3) -/

theorem Span.complete_of_terminal (sp : Span) (now : Time)
    (h : sp.status.isTerminal = true) : sp.complete now = sp := by
  unfold Span.complete
  cases hs : sp.status <;> simp_all [SpanStatus.isTerminal]

theorem Span.fail_of_terminal (sp : Span) (now : Time) (err : String)
    (h : sp.status.isTerminal = true) : sp.fail now err = sp := by
  unfold Span.fail
  cases hs : sp.status <;> simp_all [SpanStatus.isTerminal]

theorem aset_of_alookup_eq {α β : Type} [DecidableEq α] {l : List (α × β)} {k : α} {v : β}
    (h : alookup l k = some v) : aset l k v = l := by
  induction l with
  | nil => simp [alookup] at h
  | cons e rest ih =>
    obtain ⟨k0, v0⟩ := e
    by_cases hk : k0 = k
    · subst hk
      simp [alookup] at h
      simp [aset, h]
    · simp [alookup, hk] at h
      simp [aset, hk, ih h]

/-- C3: `SpanStore::complete(id)` and `SpanStore::fail(id, error)` return
`true` iff the id exists, and when the addressed span is already terminal they
leave the store — in particular the span's status with its `started_at`,
`ended_at` and `error` fields — unchanged. -/
theorem C3_lifecycle_idempotence (st : SpanStore) (now : Time) (id : SpanId) (err : String) :
    ((st.complete now id).2 = true ↔ (st.get id).isSome) ∧
    ((st.fail now id err).2 = true ↔ (st.get id).isSome) ∧
    (∀ sp, st.get id = some sp → sp.status.isTerminal = true →
      st.complete now id = (st, true) ∧ st.fail now id err = (st, true)) := by
  refine ⟨?_, ?_, ?_⟩
  · unfold SpanStore.complete SpanStore.get
    cases alookup st.spans id <;> simp
  · unfold SpanStore.fail SpanStore.get
    cases alookup st.spans id <;> simp
  · intro sp hget hterm
    unfold SpanStore.get at hget
    constructor
    · unfold SpanStore.complete
      rw [hget]
      dsimp only
      rw [Span.complete_of_terminal sp now hterm, aset_of_alookup_eq hget]
    · unfold SpanStore.fail
      rw [hget]
      dsimp only
      rw [Span.fail_of_terminal sp now err hterm, aset_of_alookup_eq hget]

/-- Store used by the C3 witness: one already-completed span. -/
def c3Span : Span :=
  { id := 0, trace_id := 0, parent_span_id := none, name := "ollama-generate",
    status := .completed 1 2,
    metadata := { model := some "llama3", input_tokens := none, output_tokens := none } }

/-- Store used by the C3 witness. -/
def c3Store : SpanStore := { spans := [(0, c3Span)], traces := [(0, [0])] }

/-- Witness for C3 at a concrete store holding a `Completed` span. -/
theorem C3_lifecycle_idempotence_witness :
    c3Store.get 0 = some c3Span ∧ c3Span.status.isTerminal = true ∧
    c3Store.complete 9 0 = (c3Store, true) ∧ c3Store.fail 9 0 "late" = (c3Store, true) := by
  refine ⟨by decide, by decide, ?_⟩
  exact (C3_lifecycle_idempotence c3Store 9 0 "late").2.2 c3Span (by decide) (by decide)

/-! ## Duplicate-id insert behaviour (C9) -/

/-- C9: inserting a span whose id is already present overwrites the
primary-index entry (last-write-wins) but appends the id to the trace's
secondary-index sequence again, so when the id was already recorded under that
trace, `spans_for_trace` afterwards lists it at least twice. -/
theorem C9_duplicate_insert (st : SpanStore) (sp old : Span)
    (h : st.get sp.id = some old) :
    (st.insert sp).get sp.id = some sp ∧
    (st.insert sp).spans_for_trace sp.trace_id = st.spans_for_trace sp.trace_id ++ [sp.id] ∧
    (sp.id ∈ st.spans_for_trace sp.trace_id →
      2 ≤ ((st.insert sp).spans_for_trace sp.trace_id).count sp.id) := by
  refine ⟨?_, ?_, ?_⟩
  · unfold SpanStore.insert SpanStore.get
    exact alookup_aset_self _ _ _
  · unfold SpanStore.insert SpanStore.spans_for_trace
    rw [alookup_aset_self]
    rfl
  · intro hmem
    unfold SpanStore.insert SpanStore.spans_for_trace
    rw [alookup_aset_self]
    simp only [Option.getD_some, List.count_append]
    have h1 : 1 ≤ (st.spans_for_trace sp.trace_id).count sp.id :=
      List.one_le_count_iff.mpr hmem
    have h2 : List.count sp.id [sp.id] = 1 := List.count_singleton_self _
    unfold SpanStore.spans_for_trace at h1
    omega

/-- Span already in the C9 witness store. -/
def c9Old : Span :=
  { id := 0, trace_id := 5, parent_span_id := none, name := "first",
    status := .running 0,
    metadata := { model := none, input_tokens := none, output_tokens := none } }

/-- Span re-inserted with the same id by the C9 witness. -/
def c9New : Span :=
  { id := 0, trace_id := 5, parent_span_id := none, name := "second",
    status := .running 3,
    metadata := { model := none, input_tokens := none, output_tokens := none } }

/-- Store used by the C9 witness. -/
def c9Store : SpanStore := { spans := [(0, c9Old)], traces := [(5, [0])] }

/-- Witness for C9: re-inserting id 0 under trace 5 leaves the new span in the
primary index and lists id 0 twice in the trace sequence. -/
theorem C9_duplicate_insert_witness :
    c9Store.get 0 = some c9Old ∧
    ((c9Store.insert c9New).get 0 = some c9New ∧
     (c9Store.insert c9New).spans_for_trace 5 = c9Store.spans_for_trace 5 ++ [0] ∧
     (0 ∈ c9Store.spans_for_trace 5 →
       2 ≤ ((c9Store.insert c9New).spans_for_trace 5).count 0)) :=
  ⟨by decide, C9_duplicate_insert c9Store c9New c9Old (by decide)⟩

/-! ## Deletion completeness (C4) -/

/-- Well-formedness of a store state: distinct primary keys, and the two
indexes agree — every listed id is a live span of that trace and every live
span is listed (once) under its trace.  `insert` with fresh ids, the deletions
and `clear` all preserve this (this is the invariant behind claim C1). -/
structure SpanStore.WF (st : SpanStore) : Prop where
  spansNodup : (st.spans.map Prod.fst).Nodup
  traceNonempty : ∀ t l, alookup st.traces t = some l → l ≠ []
  traceNodup : ∀ t l, alookup st.traces t = some l → l.Nodup
  traceSound : ∀ t l id, alookup st.traces t = some l → id ∈ l →
      ∃ sp, alookup st.spans id = some sp ∧ sp.trace_id = t
  traceComplete : ∀ id sp, alookup st.spans id = some sp →
      ∃ l, alookup st.traces sp.trace_id = some l ∧ id ∈ l

/-- The ids of the live spans recorded with a given `trace_id`. -/
def liveSpanIdsUnder (st : SpanStore) (t : TraceId) : List SpanId :=
  (st.spans.filter (fun e => e.2.trace_id = t)).map Prod.fst

theorem alookup_of_mem_nodup {α β : Type} [DecidableEq α] {l : List (α × β)} {k : α} {v : β}
    (hn : (l.map Prod.fst).Nodup) (h : (k, v) ∈ l) : alookup l k = some v := by
  induction l with
  | nil => simp at h
  | cons e rest ih =>
    obtain ⟨k0, v0⟩ := e
    simp only [List.map_cons, List.nodup_cons] at hn
    rcases List.mem_cons.mp h with he | hrest
    · obtain ⟨h1, h2⟩ := Prod.mk.injEq k v k0 v0 ▸ he
      subst h1; subst h2
      simp [alookup]
    · have hk : k0 ≠ k := by
        intro hkk
        subst hkk
        exact hn.1 (List.mem_map_of_mem Prod.fst hrest)
      simp [alookup, hk, ih hn.2 hrest]

theorem liveSpanIdsUnder_nodup (st : SpanStore) (hn : (st.spans.map Prod.fst).Nodup)
    (t : TraceId) : (liveSpanIdsUnder st t).Nodup := by
  unfold liveSpanIdsUnder
  have hsub : ((st.spans.filter (fun e => e.2.trace_id = t)).map Prod.fst).Sublist
      (st.spans.map Prod.fst) := (List.filter_sublist _).map Prod.fst
  exact hn.sublist hsub

theorem mem_liveSpanIdsUnder_iff (st : SpanStore) (hn : (st.spans.map Prod.fst).Nodup)
    (t : TraceId) (id : SpanId) :
    id ∈ liveSpanIdsUnder st t ↔ ∃ sp, alookup st.spans id = some sp ∧ sp.trace_id = t := by
  unfold liveSpanIdsUnder
  constructor
  · intro h
    obtain ⟨e, he, hfst⟩ := List.mem_map.mp h
    obtain ⟨hmem, hp⟩ := List.mem_filter.mp he
    obtain ⟨k0, sp0⟩ := e
    subst hfst
    exact ⟨sp0, alookup_of_mem_nodup hn hmem, by simpa using hp⟩
  · rintro ⟨sp, hl, ht⟩
    refine List.mem_map.mpr ⟨(id, sp), List.mem_filter.mpr ⟨alookup_mem hl, by simpa using ht⟩, rfl⟩

/-- A span id listed under a trace in a well-formed store belongs to that trace. -/
theorem SpanStore.WF.trace_unique {st : SpanStore} (hWF : st.WF) {t : TraceId} {l : List SpanId}
    {id : SpanId} {sp : Span} (hl : alookup st.traces t = some l) (hm : id ∈ l)
    (hs : alookup st.spans id = some sp) : sp.trace_id = t := by
  obtain ⟨sp', hs', ht'⟩ := hWF.traceSound t l id hl hm
  rw [hs] at hs'
  cases hs'
  exact ht'

/-- C4: in a well-formed store, `delete_trace(t)` leaves `spans_for_trace(t)`
empty, removes `t` from `trace_ids()`, and returns the number of live spans
that were stored under `t` (0 when unknown); `delete_span(id)` leaves `get(id)`
absent, removes the id from every trace sequence, and returns `true` iff a
span was removed. -/
theorem C4_deletion_completeness (st : SpanStore) (hWF : st.WF) (t : TraceId) (id : SpanId) :
    ((st.delete_trace t).1.spans_for_trace t = [] ∧
     t ∉ (st.delete_trace t).1.trace_ids ∧
     (st.delete_trace t).2 = (liveSpanIdsUnder st t).length) ∧
    ((st.delete_span id).1.get id = none ∧
     (∀ t', id ∉ (st.delete_span id).1.spans_for_trace t') ∧
     ((st.delete_span id).2 = true ↔ (st.get id).isSome)) := by
  constructor
  · unfold SpanStore.delete_trace
    cases hl : alookup st.traces t with
    | none =>
      dsimp only
      refine ⟨?_, ?_, ?_⟩
      · unfold SpanStore.spans_for_trace
        rw [hl]; rfl
      · unfold SpanStore.trace_ids
        intro hmem
        have := (alookup_isSome_iff_mem_keys st.traces t).mpr hmem
        rw [hl] at this
        simp at this
      · have hempty : liveSpanIdsUnder st t = [] := by
          unfold liveSpanIdsUnder
          rw [List.map_eq_nil_iff, List.filter_eq_nil_iff]
          intro e hmem hp
          have hlk : alookup st.spans e.1 = some e.2 :=
            alookup_of_mem_nodup hWF.spansNodup (by exact hmem)
          obtain ⟨l', hl', _⟩ := hWF.traceComplete e.1 e.2 hlk
          rw [show e.2.trace_id = t by simpa using hp, hl] at hl'
          exact Option.noConfusion hl'
        rw [hempty]
        rfl
    | some l =>
      dsimp only
      refine ⟨?_, ?_, ?_⟩
      · unfold SpanStore.spans_for_trace
        rw [alookup_aremove_self]; rfl
      · unfold SpanStore.trace_ids
        intro hmem
        have := (alookup_isSome_iff_mem_keys _ t).mpr hmem
        rw [alookup_aremove_self] at this
        simp at this
      · have hnodupLive := liveSpanIdsUnder_nodup st hWF.spansNodup t
        have hnodupL := hWF.traceNodup t l hl
        have hpermiff := List.perm_ext_iff_of_nodup hnodupL hnodupLive
        have hperm : l.Perm (liveSpanIdsUnder st t) := by
          refine hpermiff.mpr (fun x => ?_)
          rw [mem_liveSpanIdsUnder_iff st hWF.spansNodup]
          constructor
          · intro hx
            exact hWF.traceSound t l x hl hx
          · rintro ⟨sp, hs, ht⟩
            obtain ⟨l', hl', hmem'⟩ := hWF.traceComplete x sp hs
            rw [ht, hl] at hl'
            cases hl'
            exact hmem'
        exact hperm.length_eq
  · unfold SpanStore.delete_span
    cases hs : alookup st.spans id with
    | none =>
      dsimp only
      refine ⟨?_, ?_, ?_⟩
      · unfold SpanStore.get; exact hs
      · intro t' hmem
        unfold SpanStore.spans_for_trace at hmem
        cases hl' : alookup st.traces t' with
        | none => rw [hl'] at hmem; simp at hmem
        | some l' =>
          rw [hl'] at hmem
          simp only [Option.getD_some] at hmem
          obtain ⟨sp, hs', _⟩ := hWF.traceSound t' l' id hl' hmem
          rw [hs] at hs'
          exact Option.noConfusion hs'
      · unfold SpanStore.get
        rw [hs]
        simp
    | some sp =>
      dsimp only
      refine ⟨?_, ?_, ?_⟩
      · unfold SpanStore.get
        exact alookup_aremove_self _ _
      · intro t' hmem
        unfold SpanStore.spans_for_trace at hmem
        by_cases ht' : t' = sp.trace_id
        · subst ht'
          obtain ⟨l0, hl0, hm0⟩ := hWF.traceComplete id sp hs
          rw [hl0] at hmem
          dsimp only at hmem
          by_cases hk : (l0.filter (fun sid => sid ≠ id)).isEmpty
          · rw [if_pos hk, alookup_aremove_self] at hmem
            simp at hmem
          · rw [if_neg hk, alookup_aset_self] at hmem
            simp only [Option.getD_some] at hmem
            have := (List.mem_filter.mp hmem).2
            simp at this
        · have hne : sp.trace_id ≠ t' := fun h => ht' h.symm
          have hlook : alookup
              (match alookup st.traces sp.trace_id with
               | some span_ids =>
                 if (span_ids.filter (fun sid => sid ≠ id)).isEmpty then
                   aremove st.traces sp.trace_id
                 else aset st.traces sp.trace_id (span_ids.filter (fun sid => sid ≠ id))
               | none => st.traces) t' = alookup st.traces t' := by
            cases hl0 : alookup st.traces sp.trace_id with
            | none => rfl
            | some l0 =>
              dsimp only
              by_cases hk : (l0.filter (fun sid => sid ≠ id)).isEmpty
              · rw [if_pos hk, alookup_aremove_ne _ _ _ hne]
              · rw [if_neg hk, alookup_aset_ne _ _ _ _ hne]
          rw [hlook] at hmem
          cases hl' : alookup st.traces t' with
          | none => rw [hl'] at hmem; simp at hmem
          | some l' =>
            rw [hl'] at hmem
            simp only [Option.getD_some] at hmem
            exact ht' (hWF.trace_unique hl' hmem hs).symm
      · unfold SpanStore.get
        rw [hs]
        simp

/-- Span used by the C4 witness store. -/
def c4Span : Span :=
  { id := 1, trace_id := 7, parent_span_id := none, name := "ollama-chat",
    status := .running 0,
    metadata := { model := none, input_tokens := none, output_tokens := none } }

/-- Store used by the C4 witness: one span under one trace. -/
def c4Store : SpanStore := { spans := [(1, c4Span)], traces := [(7, [1])] }

theorem c4Store_wf : c4Store.WF := by
  constructor
  · decide
  · intro t l h
    simp only [c4Store, alookup, alookup_nil] at h
    split at h
    · cases h; simp
    · exact Option.noConfusion h
  · intro t l h
    simp only [c4Store, alookup, alookup_nil] at h
    split at h
    · cases h; simp
    · exact Option.noConfusion h
  · intro t l id h hm
    simp only [c4Store, alookup, alookup_nil] at h
    split at h
    next heq =>
      cases h
      simp only [List.mem_singleton] at hm
      subst hm
      exact ⟨c4Span, rfl, by rw [← heq]; rfl⟩
    next => exact Option.noConfusion h
  · intro id sp h
    simp only [c4Store, alookup, alookup_nil] at h
    split at h
    next heq =>
      cases h
      exact ⟨[1], rfl, by rw [← heq]; simp⟩
    next => exact Option.noConfusion h

/-- Witness for C4 at a concrete well-formed store. -/
theorem C4_deletion_completeness_witness :
    c4Store.WF ∧
    (((c4Store.delete_trace 7).1.spans_for_trace 7 = [] ∧
      7 ∉ (c4Store.delete_trace 7).1.trace_ids ∧
      (c4Store.delete_trace 7).2 = (liveSpanIdsUnder c4Store 7).length) ∧
     ((c4Store.delete_span 1).1.get 1 = none ∧
      (∀ t', 1 ∉ (c4Store.delete_span 1).1.spans_for_trace t') ∧
      ((c4Store.delete_span 1).2 = true ↔ (c4Store.get 1).isSome))) :=
  ⟨c4Store_wf, C4_deletion_completeness c4Store c4Store_wf 7 1⟩

/-! ## Index consistency over operation sequences (C1) -/

/-- The store mutations quantified over by the index-consistency property. -/
inductive StoreOp where
| ins (sp : Span)
| delSpan (id : SpanId)
| delTrace (t : TraceId)
| clearOp
deriving DecidableEq, Repr

/-- One mutation applied to a store. -/
def applyOp (st : SpanStore) : StoreOp → SpanStore
  | .ins sp => st.insert sp
  | .delSpan id => (st.delete_span id).1
  | .delTrace t => (st.delete_trace t).1
  | .clearOp => st.clear

/-- Execute a sequence of mutations from the empty store. -/
def run (ops : List StoreOp) : SpanStore := ops.foldl applyOp SpanStore.empty

/-- Ids of all inserted spans, in order. -/
def insIds (ops : List StoreOp) : List SpanId :=
  ops.filterMap (fun op => match op with | .ins sp => some sp.id | _ => none)

/-- Fresh-id discipline: no span id is ever inserted twice (the system
guarantees this by construction — ids are fresh per creation). -/
def FreshIds (ops : List StoreOp) : Prop := (insIds ops).Nodup

/-- Ids inserted under a given trace, in insertion order. -/
def insertedUnder (ops : List StoreOp) (t : TraceId) : List SpanId :=
  ops.filterMap (fun op => match op with
    | .ins sp => if sp.trace_id = t then some sp.id else none
    | _ => none)

/-- Restrict an id sequence to the ids currently live in the store. -/
def liveFilter (st : SpanStore) (l : List SpanId) : List SpanId :=
  l.filter (fun id => (st.get id).isSome)

theorem insIds_append (l1 l2 : List StoreOp) :
    insIds (l1 ++ l2) = insIds l1 ++ insIds l2 := by
  simp [insIds, List.filterMap_append]

theorem insertedUnder_append (l1 l2 : List StoreOp) (t : TraceId) :
    insertedUnder (l1 ++ l2) t = insertedUnder l1 t ++ insertedUnder l2 t := by
  simp [insertedUnder, List.filterMap_append]

theorem run_append_single (ops : List StoreOp) (op : StoreOp) :
    run (ops ++ [op]) = applyOp (run ops) op := by
  simp [run, List.foldl_append]

theorem mem_insIds_of_ins {ops : List StoreOp} {sp : Span}
    (h : StoreOp.ins sp ∈ ops) : sp.id ∈ insIds ops := by
  unfold insIds
  exact List.mem_filterMap.mpr ⟨StoreOp.ins sp, h, rfl⟩

theorem mem_insertedUnder_iff (ops : List StoreOp) (t : TraceId) (id : SpanId) :
    id ∈ insertedUnder ops t ↔
      ∃ sp, StoreOp.ins sp ∈ ops ∧ sp.id = id ∧ sp.trace_id = t := by
  unfold insertedUnder
  rw [List.mem_filterMap]
  constructor
  · rintro ⟨op, hmem, heq⟩
    cases op with
    | ins sp =>
      dsimp only at heq
      by_cases ht : sp.trace_id = t
      · rw [if_pos ht] at heq
        cases heq
        exact ⟨sp, hmem, rfl, ht⟩
      · rw [if_neg ht] at heq
        exact Option.noConfusion heq
    | delSpan i => exact Option.noConfusion heq
    | delTrace t0 => exact Option.noConfusion heq
    | clearOp => exact Option.noConfusion heq
  · rintro ⟨sp, hmem, hid, ht⟩
    exact ⟨StoreOp.ins sp, hmem, by simp [ht, hid]⟩

theorem mem_insIds_of_mem_insertedUnder {ops : List StoreOp} {t : TraceId} {id : SpanId}
    (h : id ∈ insertedUnder ops t) : id ∈ insIds ops := by
  obtain ⟨sp, hmem, hid, -⟩ := (mem_insertedUnder_iff ops t id).mp h
  exact hid ▸ mem_insIds_of_ins hmem

theorem ins_unique {ops : List StoreOp} (hfresh : FreshIds ops) {a b : Span}
    (ha : StoreOp.ins a ∈ ops) (hb : StoreOp.ins b ∈ ops) (hid : a.id = b.id) : a = b := by
  induction ops with
  | nil => simp at ha
  | cons op rest ih =>
    have hfresh' : FreshIds rest := by
      unfold FreshIds insIds at hfresh ⊢
      cases op with
      | ins sp => exact (List.nodup_cons.mp (by simpa [List.filterMap] using hfresh)).2
      | delSpan i => simpa [List.filterMap] using hfresh
      | delTrace t0 => simpa [List.filterMap] using hfresh
      | clearOp => simpa [List.filterMap] using hfresh
    rcases List.mem_cons.mp ha with ha0 | ha1 <;> rcases List.mem_cons.mp hb with hb0 | hb1
    · rw [← ha0] at hb0
      exact (StoreOp.ins.injEq .. ▸ hb0.symm)
    · subst ha0
      have hnotin : a.id ∉ insIds rest := by
        unfold FreshIds insIds at hfresh
        have : insIds (StoreOp.ins a :: rest) = a.id :: insIds rest := by
          simp [insIds, List.filterMap]
        rw [show (StoreOp.ins a :: rest).filterMap
            (fun op => match op with | .ins sp => some sp.id | _ => none) =
            a.id :: insIds rest from by simp [insIds, List.filterMap]] at hfresh
        exact (List.nodup_cons.mp hfresh).1
      exact absurd (hid ▸ mem_insIds_of_ins hb1) hnotin
    · subst hb0
      have hnotin : b.id ∉ insIds rest := by
        unfold FreshIds at hfresh
        rw [show insIds (StoreOp.ins b :: rest) = b.id :: insIds rest from by
          simp [insIds, List.filterMap]] at hfresh
        exact (List.nodup_cons.mp hfresh).1
      exact absurd (hid ▸ mem_insIds_of_ins ha1) hnotin
    · exact ih hfresh' ha1 hb1

theorem insertedUnder_trace_eq {ops : List StoreOp} (hfresh : FreshIds ops)
    {id : SpanId} {t t' : TraceId}
    (h : id ∈ insertedUnder ops t) (h' : id ∈ insertedUnder ops t') : t = t' := by
  obtain ⟨a, ha, haid, hat⟩ := (mem_insertedUnder_iff ops t id).mp h
  obtain ⟨b, hb, hbid, hbt⟩ := (mem_insertedUnder_iff ops t' id).mp h'
  have : a = b := ins_unique hfresh ha hb (by rw [haid, hbid])
  rw [← hat, ← hbt, this]

theorem liveFilter_congr {st st' : SpanStore} {l : List SpanId}
    (h : ∀ x ∈ l, st'.get x = st.get x) : liveFilter st' l = liveFilter st l := by
  unfold liveFilter
  exact List.filter_congr (fun x hx => by rw [h x hx])

/-- The inductive invariant behind index consistency: every live span was
inserted as-is, and each secondary-index entry is exactly the live part of the
insertion sequence of its trace (absent when that is empty). -/
def StoreInv (ops : List StoreOp) (st : SpanStore) : Prop :=
  (∀ id sp, st.get id = some sp → StoreOp.ins sp ∈ ops ∧ sp.id = id) ∧
  (∀ t, alookup st.traces t =
    (if liveFilter st (insertedUnder ops t) = [] then none
     else some (liveFilter st (insertedUnder ops t))))

theorem insert_get_self (st : SpanStore) (sp : Span) : (st.insert sp).get sp.id = some sp := by
  unfold SpanStore.insert SpanStore.get
  exact alookup_aset_self _ _ _

theorem insert_get_ne (st : SpanStore) (sp : Span) (x : SpanId) (h : x ≠ sp.id) :
    (st.insert sp).get x = st.get x := by
  unfold SpanStore.insert SpanStore.get
  exact alookup_aset_ne _ _ _ _ (fun he => h he.symm)

theorem insert_traces_self (st : SpanStore) (sp : Span) :
    alookup (st.insert sp).traces sp.trace_id =
      some ((alookup st.traces sp.trace_id).getD [] ++ [sp.id]) := by
  unfold SpanStore.insert
  exact alookup_aset_self _ _ _

theorem insert_traces_ne (st : SpanStore) (sp : Span) (t : TraceId) (h : sp.trace_id ≠ t) :
    alookup (st.insert sp).traces t = alookup st.traces t := by
  unfold SpanStore.insert
  exact alookup_aset_ne _ _ _ _ h

theorem storeInv_insert (ops : List StoreOp) (st : SpanStore) (sp : Span)
    (hfresh : FreshIds (ops ++ [.ins sp])) (hInv : StoreInv ops st) :
    StoreInv (ops ++ [.ins sp]) (st.insert sp) := by
  obtain ⟨hA, hB⟩ := hInv
  have hnotin : sp.id ∉ insIds ops := by
    rw [FreshIds, insIds_append] at hfresh
    rw [show insIds [StoreOp.ins sp] = [sp.id] from by simp [insIds, List.filterMap]] at hfresh
    intro hmem
    exact (List.nodup_append.mp hfresh).2.2 hmem (List.mem_singleton_self sp.id)
  constructor
  · intro id sp' hget
    by_cases hid : id = sp.id
    · subst hid
      rw [insert_get_self] at hget
      cases hget
      exact ⟨List.mem_append_right _ (List.mem_singleton_self _), rfl⟩
    · rw [insert_get_ne st sp id hid] at hget
      obtain ⟨hmem, hid'⟩ := hA id sp' hget
      exact ⟨List.mem_append_left _ hmem, hid'⟩
  · intro t
    have hLold : liveFilter (st.insert sp) (insertedUnder ops t) =
        liveFilter st (insertedUnder ops t) := by
      apply liveFilter_congr
      intro x hx
      exact insert_get_ne st sp x (fun h => hnotin (h ▸ mem_insIds_of_mem_insertedUnder hx))
    have hIU : insertedUnder (ops ++ [.ins sp]) t =
        insertedUnder ops t ++ (if sp.trace_id = t then [sp.id] else []) := by
      rw [insertedUnder_append]
      congr 1
      by_cases ht : sp.trace_id = t <;> simp [insertedUnder, List.filterMap, ht]
    by_cases ht : sp.trace_id = t
    · subst ht
      rw [hIU, if_pos rfl]
      rw [insert_traces_self]
      have hsplit : liveFilter (st.insert sp) (insertedUnder ops sp.trace_id ++ [sp.id]) =
          liveFilter (st.insert sp) (insertedUnder ops sp.trace_id) ++
            liveFilter (st.insert sp) [sp.id] := by
        unfold liveFilter
        exact List.filter_append _ _
      have hsingle : liveFilter (st.insert sp) [sp.id] = [sp.id] := by
        simp [liveFilter, insert_get_self]
      have hgetD : (alookup st.traces sp.trace_id).getD [] =
          liveFilter st (insertedUnder ops sp.trace_id) := by
        rw [hB sp.trace_id]
        by_cases hc : liveFilter st (insertedUnder ops sp.trace_id) = [] <;> simp [hc]
      rw [hsplit, hsingle, hLold, hgetD]
      have hne : liveFilter st (insertedUnder ops sp.trace_id) ++ [sp.id] ≠ [] := by
        simp
      rw [if_neg hne]
    · rw [hIU]
      simp only [if_neg ht, List.append_nil]
      rw [insert_traces_ne st sp t ht, hLold]
      exact hB t

theorem liveFilter_delete_span (st : SpanStore) (did : SpanId) (sp0 : Span)
    (hs : alookup st.spans did = some sp0) (l : List SpanId) :
    liveFilter (st.delete_span did).1 l = (liveFilter st l).filter (fun x => x ≠ did) := by
  have hget' : ∀ x, (st.delete_span did).1.get x = if did = x then none else st.get x := by
    intro x
    unfold SpanStore.delete_span SpanStore.get
    rw [hs]
    exact alookup_aremove _ _ _
  unfold liveFilter
  rw [List.filter_filter]
  apply List.filter_congr
  intro x hx
  by_cases hdx : did = x
  · subst hdx
    simp [hget' did]
  · have hxd : x ≠ did := fun h => hdx h.symm
    simp [hget' x, hdx, hxd]

theorem delete_span_traces (st : SpanStore) (did : SpanId) (sp0 : Span)
    (hs : alookup st.spans did = some sp0) :
    (st.delete_span did).1.traces =
      (match alookup st.traces sp0.trace_id with
       | some span_ids =>
         if (span_ids.filter (fun sid => sid ≠ did)).isEmpty then aremove st.traces sp0.trace_id
         else aset st.traces sp0.trace_id (span_ids.filter (fun sid => sid ≠ did))
       | none => st.traces) := by
  unfold SpanStore.delete_span
  rw [hs]

theorem storeInv_delSpan (ops : List StoreOp) (st : SpanStore) (did : SpanId)
    (hfresh : FreshIds ops) (hInv : StoreInv ops st) :
    StoreInv (ops ++ [.delSpan did]) ((st.delete_span did).1) := by
  obtain ⟨hA, hB⟩ := hInv
  have hIU : ∀ t, insertedUnder (ops ++ [.delSpan did]) t = insertedUnder ops t := by
    intro t
    rw [insertedUnder_append]
    simp [insertedUnder, List.filterMap]
  cases hs : alookup st.spans did with
  | none =>
    have heq : st.delete_span did = (st, false) := by
      unfold SpanStore.delete_span; rw [hs]
    rw [heq]
    exact ⟨fun id sp hget => ⟨List.mem_append_left _ (hA id sp hget).1, (hA id sp hget).2⟩,
           fun t => by rw [hIU]; exact hB t⟩
  | some sp0 =>
    obtain ⟨hm0, hid0⟩ := hA did sp0 hs
    have hget' : ∀ x, (st.delete_span did).1.get x = if did = x then none else st.get x := by
      intro x
      unfold SpanStore.delete_span SpanStore.get
      rw [hs]
      exact alookup_aremove _ _ _
    have hmemIU : did ∈ insertedUnder ops sp0.trace_id :=
      (mem_insertedUnder_iff ops sp0.trace_id did).mpr ⟨sp0, hm0, hid0, rfl⟩
    constructor
    · intro id sp hget
      rw [hget' id] at hget
      by_cases hdx : did = id
      · rw [if_pos hdx] at hget; exact Option.noConfusion hget
      · rw [if_neg hdx] at hget
        exact ⟨List.mem_append_left _ (hA id sp hget).1, (hA id sp hget).2⟩
    · intro t
      rw [hIU]
      have hLf := liveFilter_delete_span st did sp0 hs
      have htr := delete_span_traces st did sp0 hs
      by_cases ht : t = sp0.trace_id
      · subst ht
        have hlive : did ∈ liveFilter st (insertedUnder ops sp0.trace_id) := by
          unfold liveFilter
          exact List.mem_filter.mpr ⟨hmemIU, by simp [SpanStore.get, hs]⟩
        have hL0ne : liveFilter st (insertedUnder ops sp0.trace_id) ≠ [] :=
          List.ne_nil_of_mem hlive
        have hlook : alookup st.traces sp0.trace_id =
            some (liveFilter st (insertedUnder ops sp0.trace_id)) := by
          rw [hB sp0.trace_id, if_neg hL0ne]
        rw [htr, hlook]
        dsimp only
        rw [hLf]
        by_cases hk : ((liveFilter st (insertedUnder ops sp0.trace_id)).filter
            (fun sid => sid ≠ did)).isEmpty
        · rw [if_pos hk, alookup_aremove_self, if_pos (List.isEmpty_iff.mp hk)]
        · rw [if_neg hk, alookup_aset_self,
            if_neg (fun hnil => hk (List.isEmpty_iff.mpr hnil))]
      · have hne : sp0.trace_id ≠ t := fun h => ht h.symm
        have hlookup_eq : alookup (st.delete_span did).1.traces t = alookup st.traces t := by
          rw [htr]
          cases hl0 : alookup st.traces sp0.trace_id with
          | none => rfl
          | some l0 =>
            dsimp only
            by_cases hk : (l0.filter (fun sid => sid ≠ did)).isEmpty
            · rw [if_pos hk]; exact alookup_aremove_ne _ _ _ hne
            · rw [if_neg hk]; exact alookup_aset_ne _ _ _ _ hne
        have hnotmem : did ∉ insertedUnder ops t := fun hmem =>
          ht (insertedUnder_trace_eq hfresh hmem hmemIU)
        have hfix : (liveFilter st (insertedUnder ops t)).filter (fun x => x ≠ did) =
            liveFilter st (insertedUnder ops t) := by
          apply List.filter_eq_self.mpr
          intro a ha
          have hmem : a ∈ insertedUnder ops t := by
            unfold liveFilter at ha
            exact (List.mem_filter.mp ha).1
          have : a ≠ did := fun h => hnotmem (h ▸ hmem)
          simpa using this
        rw [hlookup_eq, hLf, hfix]
        exact hB t

theorem alookup_foldl_aremove {α β : Type} [DecidableEq α] (ids : List α)
    (m : List (α × β)) (x : α) :
    alookup (ids.foldl (fun sps id => aremove sps id) m) x =
      if x ∈ ids then none else alookup m x := by
  induction ids generalizing m with
  | nil => simp
  | cons k rest ih =>
    rw [List.foldl_cons, ih]
    by_cases hx1 : x ∈ rest
    · simp [hx1, List.mem_cons]
    · by_cases hx2 : k = x
      · simp [hx1, hx2, alookup_aremove, List.mem_cons]
      · have hxk : ¬x = k := fun h => hx2 h.symm
        simp [hx1, hx2, hxk, alookup_aremove, List.mem_cons]

theorem storeInv_delTrace (ops : List StoreOp) (st : SpanStore) (t0 : TraceId)
    (hfresh : FreshIds ops) (hInv : StoreInv ops st) :
    StoreInv (ops ++ [.delTrace t0]) ((st.delete_trace t0).1) := by
  obtain ⟨hA, hB⟩ := hInv
  have hIU : ∀ t, insertedUnder (ops ++ [.delTrace t0]) t = insertedUnder ops t := by
    intro t
    rw [insertedUnder_append]
    simp [insertedUnder, List.filterMap]
  cases hl : alookup st.traces t0 with
  | none =>
    have heq : st.delete_trace t0 = (st, 0) := by
      unfold SpanStore.delete_trace; rw [hl]
    rw [heq]
    exact ⟨fun id sp hget => ⟨List.mem_append_left _ (hA id sp hget).1, (hA id sp hget).2⟩,
           fun t => by rw [hIU]; exact hB t⟩
  | some l0 =>
    have hL0ne : liveFilter st (insertedUnder ops t0) ≠ [] := by
      intro hnil
      rw [hB t0, if_pos hnil] at hl
      exact Option.noConfusion hl
    have hl0eq : l0 = liveFilter st (insertedUnder ops t0) := by
      rw [hB t0, if_neg hL0ne] at hl
      exact (Option.some.inj hl).symm
    have hspans' : (st.delete_trace t0).1.spans =
        l0.foldl (fun sps id => aremove sps id) st.spans := by
      unfold SpanStore.delete_trace; rw [hl]
    have htraces' : (st.delete_trace t0).1.traces = aremove st.traces t0 := by
      unfold SpanStore.delete_trace; rw [hl]
    have hget' : ∀ x, (st.delete_trace t0).1.get x = if x ∈ l0 then none else st.get x := by
      intro x
      unfold SpanStore.get
      rw [hspans']
      exact alookup_foldl_aremove _ _ _
    constructor
    · intro id sp hget
      rw [hget' id] at hget
      by_cases hmem : id ∈ l0
      · rw [if_pos hmem] at hget; exact Option.noConfusion hget
      · rw [if_neg hmem] at hget
        exact ⟨List.mem_append_left _ (hA id sp hget).1, (hA id sp hget).2⟩
    · intro t
      rw [hIU]
      by_cases ht : t = t0
      · subst ht
        have hempty : liveFilter (st.delete_trace t).1 (insertedUnder ops t) = [] := by
          unfold liveFilter
          rw [List.filter_eq_nil_iff]
          intro a hmem hp
          rw [hget' a] at hp
          by_cases hal : a ∈ l0
          · rw [if_pos hal] at hp; simp at hp
          · rw [if_neg hal] at hp
            cases hga : st.get a with
            | none => rw [hga] at hp; simp at hp
            | some sp =>
              exact hal (hl0eq ▸ (List.mem_filter.mpr ⟨hmem, by simp [hga]⟩))
        rw [hempty, if_pos rfl, htraces']
        exact alookup_aremove_self _ _
      · have hne : t0 ≠ t := fun h => ht h.symm
        have hLeq : liveFilter (st.delete_trace t0).1 (insertedUnder ops t) =
            liveFilter st (insertedUnder ops t) := by
          apply liveFilter_congr
          intro x hx
          rw [hget' x]
          have hxl0 : x ∉ l0 := by
            intro hxin
            have hxIU0 : x ∈ insertedUnder ops t0 := by
              rw [hl0eq] at hxin
              unfold liveFilter at hxin
              exact (List.mem_filter.mp hxin).1
            exact ht (insertedUnder_trace_eq hfresh hx hxIU0)
          rw [if_neg hxl0]
        rw [hLeq, htraces', alookup_aremove_ne _ _ _ hne]
        exact hB t

theorem storeInv_clear (ops : List StoreOp) (st : SpanStore) :
    StoreInv (ops ++ [.clearOp]) st.clear := by
  constructor
  · intro id sp hget
    simp [SpanStore.clear, SpanStore.empty, SpanStore.get, alookup] at hget
  · intro t
    have : liveFilter SpanStore.empty (insertedUnder (ops ++ [.clearOp]) t) = [] := by
      unfold liveFilter
      rw [List.filter_eq_nil_iff]
      intro a _ hp
      simp [SpanStore.get, SpanStore.empty, alookup] at hp
    rw [SpanStore.clear, this, if_pos rfl]
    rfl

theorem storeInv_run (ops : List StoreOp) (hfresh : FreshIds ops) : StoreInv ops (run ops) := by
  induction ops using List.reverseRecOn with
  | nil =>
    constructor
    · intro id sp hget
      simp [run, SpanStore.empty, SpanStore.get, alookup] at hget
    · intro t
      have : liveFilter (run []) (insertedUnder [] t) = [] := rfl
      rw [this, if_pos rfl]
      rfl
  | append_singleton ops op ih =>
    have hfr : FreshIds ops := by
      rw [FreshIds, insIds_append] at hfresh
      exact (List.nodup_append.mp hfresh).1
    rw [run_append_single]
    cases op with
    | ins sp => exact storeInv_insert ops (run ops) sp hfresh (ih hfr)
    | delSpan i => exact storeInv_delSpan ops (run ops) i hfr (ih hfr)
    | delTrace t => exact storeInv_delTrace ops (run ops) t hfr (ih hfr)
    | clearOp => exact storeInv_clear ops (run ops)

/-- C1 (amended with the fresh-id discipline the system guarantees by
construction): for every operation sequence whose inserted ids are pairwise
distinct, `trace_ids()` contains exactly the traces with at least one live
span, and `spans_for_trace(t)` is exactly the live part of the sequence of
ids inserted under `t`, in insertion order. -/
theorem C1_index_consistency (ops : List StoreOp) (hfresh : FreshIds ops) :
    (∀ t, (run ops).spans_for_trace t = liveFilter (run ops) (insertedUnder ops t)) ∧
    (∀ t, t ∈ (run ops).trace_ids ↔
      ∃ id sp, (run ops).get id = some sp ∧ sp.trace_id = t) := by
  obtain ⟨hA, hB⟩ := storeInv_run ops hfresh
  constructor
  · intro t
    unfold SpanStore.spans_for_trace
    rw [hB t]
    by_cases hc : liveFilter (run ops) (insertedUnder ops t) = [] <;> simp [hc]
  · intro t
    unfold SpanStore.trace_ids
    rw [← alookup_isSome_iff_mem_keys, hB t]
    constructor
    · intro hsome
      by_cases hc : liveFilter (run ops) (insertedUnder ops t) = []
      · rw [if_pos hc] at hsome
        simp at hsome
      · obtain ⟨x, hx⟩ := List.exists_mem_of_ne_nil _ hc
        unfold liveFilter at hx
        obtain ⟨hxIU, hxlive⟩ := List.mem_filter.mp hx
        cases hga : (run ops).get x with
        | none => rw [hga] at hxlive; simp at hxlive
        | some sp =>
          obtain ⟨hm, hid⟩ := hA x sp hga
          obtain ⟨sp2, hm2, hid2, ht2⟩ := (mem_insertedUnder_iff ops t x).mp hxIU
          have : sp = sp2 := ins_unique hfresh hm hm2 (by rw [hid, hid2])
          exact ⟨x, sp, hga, this ▸ ht2⟩
    · rintro ⟨id, sp, hget, htr⟩
      obtain ⟨hm, hid⟩ := hA id sp hget
      have hIU : id ∈ insertedUnder ops t :=
        (mem_insertedUnder_iff ops t id).mpr ⟨sp, hm, hid, htr⟩
      have hlive : id ∈ liveFilter (run ops) (insertedUnder ops t) := by
        unfold liveFilter
        exact List.mem_filter.mpr ⟨hIU, by simp [hget]⟩
      rw [if_neg (List.ne_nil_of_mem hlive)]
      simp

/-- The C1 claim exactly as stated: index consistency for every sequence of
insert / delete_span / delete_trace / clear operations, with no restriction
on the inserted ids. -/
def ClaimC1AsStated : Prop :=
  ∀ ops : List StoreOp,
    (∀ t, (run ops).spans_for_trace t = liveFilter (run ops) (insertedUnder ops t)) ∧
    (∀ t, t ∈ (run ops).trace_ids ↔
      ∃ id sp, (run ops).get id = some sp ∧ sp.trace_id = t)

/-- First span of the C1 counterexample: id 0 under trace 0. -/
def c1SpanA : Span :=
  { id := 0, trace_id := 0, parent_span_id := none, name := "a",
    status := .running 0,
    metadata := { model := none, input_tokens := none, output_tokens := none } }

/-- Second span of the C1 counterexample: the same id re-inserted under trace 1. -/
def c1SpanB : Span :=
  { id := 0, trace_id := 1, parent_span_id := none, name := "b",
    status := .running 0,
    metadata := { model := none, input_tokens := none, output_tokens := none } }

/-- The C1 counterexample sequence: two inserts reusing span id 0. -/
def c1Ops : List StoreOp := [.ins c1SpanA, .ins c1SpanB]

/-- C1 as stated is false: after inserting id 0 under trace 0 and re-inserting
id 0 under trace 1, trace 0 is still in `trace_ids()` although no live span
belongs to it. -/
theorem C1_counterexample : ¬ClaimC1AsStated := by
  intro h
  obtain ⟨-, h2⟩ := h c1Ops
  have hmem : (0 : TraceId) ∈ (run c1Ops).trace_ids := by decide
  obtain ⟨id, sp, hget, htr⟩ := (h2 0).mp hmem
  have hm : (id, sp) ∈ (run c1Ops).spans := alookup_mem hget
  have hsp : (run c1Ops).spans = [(0, c1SpanB)] := by decide
  rw [hsp] at hm
  simp only [List.mem_singleton, Prod.mk.injEq] at hm
  rw [hm.2] at htr
  exact absurd htr (by decide)

/-- First span of the C1 witness sequence. -/
def c1wSpanA : Span :=
  { id := 0, trace_id := 0, parent_span_id := none, name := "a",
    status := .running 0,
    metadata := { model := none, input_tokens := none, output_tokens := none } }

/-- Second span of the C1 witness sequence (fresh id, same trace). -/
def c1wSpanB : Span :=
  { id := 1, trace_id := 0, parent_span_id := none, name := "b",
    status := .running 1,
    metadata := { model := none, input_tokens := none, output_tokens := none } }

/-- The C1 witness sequence: two fresh inserts then one span deletion. -/
def c1wOps : List StoreOp := [.ins c1wSpanA, .ins c1wSpanB, .delSpan 0]

/-- Witness for the amended C1 at a concrete fresh-id sequence. -/
theorem C1_index_consistency_witness :
    FreshIds c1wOps ∧
    ((∀ t, (run c1wOps).spans_for_trace t = liveFilter (run c1wOps) (insertedUnder c1wOps t)) ∧
     (∀ t, t ∈ (run c1wOps).trace_ids ↔
       ∃ id sp, (run c1wOps).get id = some sp ∧ sp.trace_id = t)) :=
  ⟨by show (insIds c1wOps).Nodup; decide,
   C1_index_consistency c1wOps (by show (insIds c1wOps).Nodup; decide)⟩

/-! ## JSON values and the proxy handlers (`crates/proxy/src/lib.rs`) -/

/-- `serde_json::Value` (numbers restricted to the unsigned integers the
handlers touch). -/
inductive Json where
| null
| bool (b : Bool)
| num (n : Nat)
| str (s : String)
| arr (elems : List Json)
| obj (fields : List (String × Json))
deriving BEq, Repr

/-- `GenerateRequest`: `model`, `prompt`, optional `stream`, flattened extras. -/
structure GenerateRequest where
  model : String
  prompt : String
  stream : Option Bool
  extra : List (String × Json)

/-- `ChatMessage`: `role`, `content`. -/
structure ChatMessage where
  role : String
  content : String

/-- `ChatRequest`: `model`, `messages`, optional `stream`, flattened extras. -/
structure ChatRequest where
  model : String
  messages : List ChatMessage
  stream : Option Bool
  extra : List (String × Json)

/-- `GenerateResponse`: defaulted `response`, optional token counters,
flattened extras. -/
structure GenerateResponse where
  response : String
  prompt_eval_count : Option Nat
  eval_count : Option Nat
  extra : List (String × Json)

/-- `ChatResponse`: optional `message`, optional token counters, flattened
extras. -/
structure ChatResponse where
  message : Option ChatMessage
  prompt_eval_count : Option Nat
  eval_count : Option Nat
  extra : List (String × Json)

/-- serde serialization of `Option<bool>` (no skip attribute: `None` →
`null`). -/
def optBoolJson : Option Bool → Json
  | none => .null
  | some b => .bool b

/-- serde serialization of `Option<u64>` (no skip attribute: `None` →
`null`). -/
def optNatJson : Option Nat → Json
  | none => .null
  | some n => .num n

/-- Derived `Serialize` for `GenerateRequest` (declared fields, then the
flattened remainder). -/
def serializeGenerateRequest (r : GenerateRequest) : List (String × Json) :=
  ("model", .str r.model) :: ("prompt", .str r.prompt) ::
    ("stream", optBoolJson r.stream) :: r.extra

/-- Derived `Serialize` for `ChatMessage`. -/
def serializeChatMessage (m : ChatMessage) : Json :=
  .obj [("role", .str m.role), ("content", .str m.content)]

/-- Derived `Serialize` for `ChatRequest`. -/
def serializeChatRequest (r : ChatRequest) : List (String × Json) :=
  ("model", .str r.model) :: ("messages", .arr (r.messages.map serializeChatMessage)) ::
    ("stream", optBoolJson r.stream) :: r.extra

/-- Derived `Serialize` for `GenerateResponse`. -/
def serializeGenerateResponse (r : GenerateResponse) : List (String × Json) :=
  ("response", .str r.response) :: ("prompt_eval_count", optNatJson r.prompt_eval_count) ::
    ("eval_count", optNatJson r.eval_count) :: r.extra

/-- serde serialization of `Option<ChatMessage>`. -/
def optMessageJson : Option ChatMessage → Json
  | none => .null
  | some m => serializeChatMessage m

/-- Derived `Serialize` for `ChatResponse`. -/
def serializeChatResponse (r : ChatResponse) : List (String × Json) :=
  ("message", optMessageJson r.message) :: ("prompt_eval_count", optNatJson r.prompt_eval_count) ::
    ("eval_count", optNatJson r.eval_count) :: r.extra

/-- serde: a `#[serde(default)] String` field — missing key defaults to `""`,
a present key must hold a string. -/
def getStrDefault (l : List (String × Json)) (k : String) : Option String :=
  match alookup l k with
  | none => some ""
  | some (.str s) => some s
  | some _ => none

/-- serde: a `#[serde(default)] Option<u64>` field — missing or `null` is
`None`, a number is `Some`, anything else is a type error. -/
def getOptNat (l : List (String × Json)) (k : String) : Option (Option Nat) :=
  match alookup l k with
  | none => some none
  | some .null => some none
  | some (.num n) => some (some n)
  | some _ => none

/-- The flattened remainder serde collects: all fields except the declared
keys. -/
def removeKeys (l : List (String × Json)) (ks : List String) : List (String × Json) :=
  l.filter (fun e => !(ks.contains e.1))

/-- Derived `Deserialize` for `GenerateResponse` over a JSON object. -/
def parseGenerateResponse (l : List (String × Json)) : Option GenerateResponse :=
  match getStrDefault l "response", getOptNat l "prompt_eval_count",
      getOptNat l "eval_count" with
  | some resp, some pec, some ec =>
    some { response := resp, prompt_eval_count := pec, eval_count := ec,
           extra := removeKeys l ["response", "prompt_eval_count", "eval_count"] }
  | _, _, _ => none

/-- Derived `Deserialize` for `ChatMessage` over a JSON object (required
string fields; unknown fields ignored). -/
def parseChatMessageObj (l : List (String × Json)) : Option ChatMessage :=
  match alookup l "role", alookup l "content" with
  | some (.str r), some (.str c) => some { role := r, content := c }
  | _, _ => none

/-- serde: an `Option<ChatMessage>` field — missing or `null` is `None`, an
object deserializes `ChatMessage`, anything else is a type error. -/
def getOptMessage (l : List (String × Json)) (k : String) : Option (Option ChatMessage) :=
  match alookup l k with
  | none => some none
  | some .null => some none
  | some (.obj m) => (parseChatMessageObj m).map some
  | some _ => none

/-- Derived `Deserialize` for `ChatResponse` over a JSON object. -/
def parseChatResponse (l : List (String × Json)) : Option ChatResponse :=
  match getOptMessage l "message", getOptNat l "prompt_eval_count",
      getOptNat l "eval_count" with
  | some msg, some pec, some ec =>
    some { message := msg, prompt_eval_count := pec, eval_count := ec,
           extra := removeKeys l ["message", "prompt_eval_count", "eval_count"] }
  | _, _, _ => none

/-- `response.json::<T>()` requires a JSON object for these struct targets. -/
def toObj : Json → Option (List (String × Json))
  | .obj l => some l
  | _ => none

/-- Outcome of the outbound call, at the boundary the handler observes:
a transport error, a non-success status (with its display text and body
text), or a success status whose body is either valid JSON or not. -/
inductive UpstreamOutcome where
| transportErr (msg : String)
| errorStatus (statusText bodyText : String)
| successBody (body : Json)
| successUnparseable (msg : String)

/-- What the handler returns to the inbound caller: a JSON body (status 200)
or a bare status code. -/
inductive HandlerResult where
| ok (body : Json)
| err (status : Nat)
deriving Repr

/-- `StatusCode::BAD_GATEWAY`. -/
def BAD_GATEWAY : Nat := 502

/-- `fail_span`: `get_mut` then `Span::fail`, ignoring absence. -/
def fail_span (st : SpanStore) (now : Time) (span_id : SpanId) (error : String) : SpanStore :=
  (st.fail now span_id error).1

/-- The span update on the success path: set both token counters from the
parsed response, then `complete()`. -/
def completeWithTokens (s : Span) (now : Time) (pec ec : Option Nat) : Span :=
  ({ s with metadata := { s.metadata with input_tokens := pec, output_tokens := ec } }).complete now

/-- The success-path store update: `if let Some(s) = store.get_mut(span_id)`
then set both token counters and `complete()`; when the span is gone the
store is untouched. -/
def proxySuccessStore (st : SpanStore) (span_id : SpanId) (now : Time)
    (pec ec : Option Nat) : SpanStore :=
  match st.get span_id with
  | some s => { st with spans := aset st.spans span_id (completeWithTokens s now pec ec) }
  | none => st

/-- `proxy_generate` after the outbound call returns: the `match result`
block — fail the span and answer 502 on transport error, non-success status
("Ollama error {status}: {body}") or parse failure; on success update the
span and echo the re-serialized response. -/
def finalizeGenerate (st : SpanStore) (span_id : SpanId) (now : Time)
    (outcome : UpstreamOutcome) (parseErrDetail : String) : SpanStore × HandlerResult :=
  match outcome with
  | .transportErr e =>
    (fail_span st now span_id ("Request failed: " ++ e), .err BAD_GATEWAY)
  | .errorStatus status body =>
    (fail_span st now span_id ("Ollama error " ++ status ++ ": " ++ body), .err BAD_GATEWAY)
  | .successUnparseable e =>
    (fail_span st now span_id ("Failed to parse response: " ++ e), .err BAD_GATEWAY)
  | .successBody j =>
    match toObj j with
    | none =>
      (fail_span st now span_id ("Failed to parse response: " ++ parseErrDetail), .err BAD_GATEWAY)
    | some fields =>
      match parseGenerateResponse fields with
      | none =>
        (fail_span st now span_id ("Failed to parse response: " ++ parseErrDetail),
         .err BAD_GATEWAY)
      | some gen_resp =>
        (proxySuccessStore st span_id now gen_resp.prompt_eval_count gen_resp.eval_count,
         .ok (.obj (serializeGenerateResponse gen_resp)))

/-- `proxy_chat` after the outbound call returns (same structure as
`finalizeGenerate` over `ChatResponse`). -/
def finalizeChat (st : SpanStore) (span_id : SpanId) (now : Time)
    (outcome : UpstreamOutcome) (parseErrDetail : String) : SpanStore × HandlerResult :=
  match outcome with
  | .transportErr e =>
    (fail_span st now span_id ("Request failed: " ++ e), .err BAD_GATEWAY)
  | .errorStatus status body =>
    (fail_span st now span_id ("Ollama error " ++ status ++ ": " ++ body), .err BAD_GATEWAY)
  | .successUnparseable e =>
    (fail_span st now span_id ("Failed to parse response: " ++ e), .err BAD_GATEWAY)
  | .successBody j =>
    match toObj j with
    | none =>
      (fail_span st now span_id ("Failed to parse response: " ++ parseErrDetail), .err BAD_GATEWAY)
    | some fields =>
      match parseChatResponse fields with
      | none =>
        (fail_span st now span_id ("Failed to parse response: " ++ parseErrDetail),
         .err BAD_GATEWAY)
      | some chat_resp =>
        (proxySuccessStore st span_id now chat_resp.prompt_eval_count chat_resp.eval_count,
         .ok (.obj (serializeChatResponse chat_resp)))

/-- The span `proxy_generate` creates and inserts before the outbound call
(fresh trace, no parent, name "ollama-generate", `metadata.model` from the
request). -/
def generateSpan (req : GenerateRequest) (trace_id : TraceId) (span_id : SpanId)
    (t0 : Time) : Span :=
  { Span.new span_id trace_id none "ollama-generate" t0 with
    metadata := { model := some req.model, input_tokens := none, output_tokens := none } }

/-- The span `proxy_chat` creates and inserts before the outbound call. -/
def chatSpan (req : ChatRequest) (trace_id : TraceId) (span_id : SpanId)
    (t0 : Time) : Span :=
  { Span.new span_id trace_id none "ollama-chat" t0 with
    metadata := { model := some req.model, input_tokens := none, output_tokens := none } }

/-- `proxy_generate` end to end: create and insert the span, then finalize on
the outbound outcome.  The fresh uuid ids, the clock readings and the
outbound call's outcome are explicit parameters. -/
def proxyGenerate (st : SpanStore) (req : GenerateRequest) (trace_id : TraceId)
    (span_id : SpanId) (t0 t1 : Time) (outcome : UpstreamOutcome)
    (parseErrDetail : String) : SpanStore × HandlerResult :=
  finalizeGenerate (st.insert (generateSpan req trace_id span_id t0)) span_id t1
    outcome parseErrDetail

/-- `proxy_chat` end to end. -/
def proxyChat (st : SpanStore) (req : ChatRequest) (trace_id : TraceId)
    (span_id : SpanId) (t0 t1 : Time) (outcome : UpstreamOutcome)
    (parseErrDetail : String) : SpanStore × HandlerResult :=
  finalizeChat (st.insert (chatSpan req trace_id span_id t0)) span_id t1
    outcome parseErrDetail

/-- The body `proxy_generate` forwards: `serde_json::to_value(&req)` with
`request_body["stream"] = Value::Bool(false)`. -/
def forwardedGenerateBody (req : GenerateRequest) : List (String × Json) :=
  aset (serializeGenerateRequest req) "stream" (.bool false)

/-- The body `proxy_chat` forwards. -/
def forwardedChatBody (req : ChatRequest) : List (String × Json) :=
  aset (serializeChatRequest req) "stream" (.bool false)

/-! ## Stream override with frame condition (C7) -/

theorem forwardedGenerateBody_eq (req : GenerateRequest) :
    forwardedGenerateBody req =
      ("model", .str req.model) :: ("prompt", .str req.prompt) ::
        ("stream", .bool false) :: req.extra := by
  unfold forwardedGenerateBody serializeGenerateRequest
  rw [aset, if_neg (by decide : ¬("model" : String) = "stream")]
  rw [aset, if_neg (by decide : ¬("prompt" : String) = "stream")]
  rw [aset, if_pos rfl]

theorem forwardedChatBody_eq (req : ChatRequest) :
    forwardedChatBody req =
      ("model", .str req.model) :: ("messages", .arr (req.messages.map serializeChatMessage)) ::
        ("stream", .bool false) :: req.extra := by
  unfold forwardedChatBody serializeChatRequest
  rw [aset, if_neg (by decide : ¬("model" : String) = "stream")]
  rw [aset, if_neg (by decide : ¬("messages" : String) = "stream")]
  rw [aset, if_pos rfl]

/-- C7: both handlers forward a body whose `stream` field is `false`
regardless of the caller-supplied `stream` value, while `model`,
`prompt` / `messages` and every extra field are forwarded unchanged. -/
theorem C7_stream_override (greq : GenerateRequest) (creq : ChatRequest) :
    (alookup (forwardedGenerateBody greq) "stream" = some (.bool false) ∧
     alookup (forwardedGenerateBody greq) "model" = some (.str greq.model) ∧
     alookup (forwardedGenerateBody greq) "prompt" = some (.str greq.prompt) ∧
     ∀ k, k ≠ "stream" → k ≠ "model" → k ≠ "prompt" →
       alookup (forwardedGenerateBody greq) k = alookup greq.extra k) ∧
    (alookup (forwardedChatBody creq) "stream" = some (.bool false) ∧
     alookup (forwardedChatBody creq) "model" = some (.str creq.model) ∧
     alookup (forwardedChatBody creq) "messages" =
       some (.arr (creq.messages.map serializeChatMessage)) ∧
     ∀ k, k ≠ "stream" → k ≠ "model" → k ≠ "messages" →
       alookup (forwardedChatBody creq) k = alookup creq.extra k) := by
  constructor
  · rw [forwardedGenerateBody_eq]
    refine ⟨?_, ?_, ?_, ?_⟩
    · rw [alookup_cons, if_neg (by decide : ¬("model" : String) = "stream"),
        alookup_cons, if_neg (by decide : ¬("prompt" : String) = "stream"),
        alookup_cons, if_pos rfl]
    · rw [alookup_cons, if_pos rfl]
    · rw [alookup_cons, if_neg (by decide : ¬("model" : String) = "prompt"),
        alookup_cons, if_pos rfl]
    · intro k hks hkm hkp
      rw [alookup_cons, if_neg (fun h => hkm h.symm),
        alookup_cons, if_neg (fun h => hkp h.symm),
        alookup_cons, if_neg (fun h => hks h.symm)]
  · rw [forwardedChatBody_eq]
    refine ⟨?_, ?_, ?_, ?_⟩
    · rw [alookup_cons, if_neg (by decide : ¬("model" : String) = "stream"),
        alookup_cons, if_neg (by decide : ¬("messages" : String) = "stream"),
        alookup_cons, if_pos rfl]
    · rw [alookup_cons, if_pos rfl]
    · rw [alookup_cons, if_neg (by decide : ¬("model" : String) = "messages"),
        alookup_cons, if_pos rfl]
    · intro k hks hkm hkp
      rw [alookup_cons, if_neg (fun h => hkm h.symm),
        alookup_cons, if_neg (fun h => hkp h.symm),
        alookup_cons, if_neg (fun h => hks h.symm)]

/-! ## Finalization on a deleted span (C10) -/

theorem fail_span_of_absent (st : SpanStore) (now : Time) (id : SpanId) (err : String)
    (h : st.get id = none) : fail_span st now id err = st := by
  unfold fail_span SpanStore.fail
  unfold SpanStore.get at h
  rw [h]

theorem proxySuccessStore_of_absent (st : SpanStore) (id : SpanId) (now : Time)
    (pec ec : Option Nat) (h : st.get id = none) :
    proxySuccessStore st id now pec ec = st := by
  unfold proxySuccessStore
  rw [h]

/-- C10: when the span a handler inserted has been deleted before its
finalization step, the finalization is silently skipped — the store is left
unchanged — and the inbound response does not depend on the store at all, so
it is the same as it would have been with the span still present. -/
theorem C10_missing_span_finalize_skip :
    (∀ (st st' : SpanStore) (id : SpanId) (t : Time) (o : UpstreamOutcome) (perr : String),
      (finalizeGenerate st id t o perr).2 = (finalizeGenerate st' id t o perr).2 ∧
      (finalizeChat st id t o perr).2 = (finalizeChat st' id t o perr).2) ∧
    (∀ (st : SpanStore) (id : SpanId) (t : Time) (o : UpstreamOutcome) (perr : String),
      st.get id = none →
      (finalizeGenerate st id t o perr).1 = st ∧ (finalizeChat st id t o perr).1 = st) := by
  constructor
  · intro st st' id t o perr
    cases o with
    | transportErr e => exact ⟨rfl, rfl⟩
    | errorStatus s b => exact ⟨rfl, rfl⟩
    | successUnparseable e => exact ⟨rfl, rfl⟩
    | successBody j =>
      cases htj : toObj j with
      | none => simp [finalizeGenerate, finalizeChat, htj]
      | some fields =>
        constructor
        · cases hp : parseGenerateResponse fields <;> simp [finalizeGenerate, htj, hp]
        · cases hp : parseChatResponse fields <;> simp [finalizeChat, htj, hp]
  · intro st id t o perr hget
    cases o with
    | transportErr e =>
      exact ⟨fail_span_of_absent st t id _ hget, fail_span_of_absent st t id _ hget⟩
    | errorStatus s b =>
      exact ⟨fail_span_of_absent st t id _ hget, fail_span_of_absent st t id _ hget⟩
    | successUnparseable e =>
      exact ⟨fail_span_of_absent st t id _ hget, fail_span_of_absent st t id _ hget⟩
    | successBody j =>
      cases htj : toObj j with
      | none =>
        constructor <;>
          simp [finalizeGenerate, finalizeChat, htj, fail_span_of_absent st t id _ hget]
      | some fields =>
        constructor
        · cases hp : parseGenerateResponse fields <;>
            simp [finalizeGenerate, htj, hp, fail_span_of_absent st t id _ hget,
              proxySuccessStore_of_absent st id t _ _ hget]
        · cases hp : parseChatResponse fields <;>
            simp [finalizeChat, htj, hp, fail_span_of_absent st t id _ hget,
              proxySuccessStore_of_absent st id t _ _ hget]

/-- A store still holding span 3 for the C10 witness comparison. -/
def c10Span : Span :=
  { id := 3, trace_id := 9, parent_span_id := none, name := "ollama-generate",
    status := .running 0,
    metadata := { model := some "llama3", input_tokens := none, output_tokens := none } }

/-- Store used by the C10 witness. -/
def c10Store : SpanStore := { spans := [(3, c10Span)], traces := [(9, [3])] }

/-- Witness for C10: span 3 is absent from the empty store, finalization
leaves it unchanged, and the response equals the one computed over a store
that still holds span 3. -/
theorem C10_missing_span_finalize_skip_witness :
    SpanStore.empty.get 3 = none ∧
    ((finalizeGenerate SpanStore.empty 3 1 (.transportErr "timeout") "").1 = SpanStore.empty ∧
     (finalizeChat SpanStore.empty 3 1 (.transportErr "timeout") "").1 = SpanStore.empty) ∧
    ((finalizeGenerate SpanStore.empty 3 1 (.transportErr "timeout") "").2 =
       (finalizeGenerate c10Store 3 1 (.transportErr "timeout") "").2 ∧
     (finalizeChat SpanStore.empty 3 1 (.transportErr "timeout") "").2 =
       (finalizeChat c10Store 3 1 (.transportErr "timeout") "").2) :=
  ⟨rfl,
   C10_missing_span_finalize_skip.2 SpanStore.empty 3 1 (.transportErr "timeout") "" rfl,
   C10_missing_span_finalize_skip.1 SpanStore.empty c10Store 3 1 (.transportErr "timeout") ""⟩

/-! ## Backend-error recording and surfacing (C5) -/

theorem fail_span_get_self (st : SpanStore) (now : Time) (id : SpanId) (err : String)
    (sp : Span) (h : st.get id = some sp) :
    (fail_span st now id err).get id = some (sp.fail now err) := by
  unfold fail_span SpanStore.fail
  unfold SpanStore.get at h ⊢
  rw [h]
  exact alookup_aset_self _ _ _

/-- C5 (amended): on a non-success backend status both handlers record the
span as `Failed` with the message `"Ollama error <status>: <body>"` — which
contains the backend status and the response body — and return the bare
`BAD_GATEWAY` status with no response body. -/
theorem C5_backend_error (st : SpanStore) (greq : GenerateRequest) (creq : ChatRequest)
    (gtr gsp ctr csp : Nat) (t0 t1 : Time) (s b perr : String) :
    ((proxyGenerate st greq gtr gsp t0 t1 (.errorStatus s b) perr).2 = .err BAD_GATEWAY ∧
     (proxyGenerate st greq gtr gsp t0 t1 (.errorStatus s b) perr).1.get gsp =
       some { generateSpan greq gtr gsp t0 with
              status := .failed t0 t1 ("Ollama error " ++ s ++ ": " ++ b) }) ∧
    ((proxyChat st creq ctr csp t0 t1 (.errorStatus s b) perr).2 = .err BAD_GATEWAY ∧
     (proxyChat st creq ctr csp t0 t1 (.errorStatus s b) perr).1.get csp =
       some { chatSpan creq ctr csp t0 with
              status := .failed t0 t1 ("Ollama error " ++ s ++ ": " ++ b) }) ∧
    (s.data <:+: ("Ollama error " ++ s ++ ": " ++ b).data ∧
     b.data <:+: ("Ollama error " ++ s ++ ": " ++ b).data) := by
  refine ⟨⟨rfl, ?_⟩, ⟨rfl, ?_⟩, ?_, ?_⟩
  · have h1 : (st.insert (generateSpan greq gtr gsp t0)).get gsp =
        some (generateSpan greq gtr gsp t0) := insert_get_self st _
    exact fail_span_get_self _ t1 gsp _ _ h1
  · have h1 : (st.insert (chatSpan creq ctr csp t0)).get csp =
        some (chatSpan creq ctr csp t0) := insert_get_self st _
    exact fail_span_get_self _ t1 csp _ _ h1
  · exact ⟨("Ollama error ").data, (": " ++ b).data, by
      simp [String.data_append, List.append_assoc]⟩
  · exact ⟨("Ollama error " ++ s ++ ": ").data, [], by simp [String.data_append]⟩

/-- Request used by the C5 counterexample and Scenario E. -/
def c5Req : GenerateRequest := { model := "llama3", prompt := "hi", stream := none, extra := [] }

/-- C5 as stated is false: for a backend 500 with body "oom" the recorded
message is `"Ollama error 500 Internal Server Error: oom"`, which is not of
the form `"backend error <status>: <body>"` — it differs from that string and
does not even contain `"backend error"`. -/
theorem C5_counterexample :
    (proxyGenerate SpanStore.empty c5Req 0 1 0 1
        (.errorStatus "500 Internal Server Error" "oom") "").1.get 1 =
      some { generateSpan c5Req 0 1 0 with
             status := .failed 0 1 "Ollama error 500 Internal Server Error: oom" } ∧
    "Ollama error 500 Internal Server Error: oom" ≠
      "backend error 500 Internal Server Error: oom" ∧
    strContains "Ollama error 500 Internal Server Error: oom" "backend error" = false :=
  ⟨by decide, by decide, by decide⟩

/-! ## Success passthrough (C6) -/

theorem alookup_removeKeys (l : List (String × Json)) (ks : List String) (k : String)
    (h : k ∉ ks) : alookup (removeKeys l ks) k = alookup l k := by
  induction l with
  | nil => rfl
  | cons e rest ih =>
    obtain ⟨k0, v0⟩ := e
    by_cases hk0 : ks.contains k0
    · have hne : ¬k0 = k := fun he => h (he ▸ List.mem_of_elem_eq_true hk0)
      simp only [removeKeys, List.filter_cons, hk0] at ih ⊢
      simpa [alookup, hne, removeKeys] using ih
    · simp only [removeKeys, List.filter_cons, hk0] at ih ⊢
      simp only [Bool.not_false, if_pos]
      rw [alookup_cons, alookup_cons]
      by_cases hk : k0 = k
      · simp [hk]
      · simpa [hk, removeKeys] using ih

theorem parseGenerateResponse_extra {l : List (String × Json)} {r : GenerateResponse}
    (h : parseGenerateResponse l = some r) :
    r.extra = removeKeys l ["response", "prompt_eval_count", "eval_count"] := by
  unfold parseGenerateResponse at h
  cases h1 : getStrDefault l "response" with
  | none => rw [h1] at h; simp at h
  | some resp =>
    cases h2 : getOptNat l "prompt_eval_count" with
    | none => rw [h1, h2] at h; simp at h
    | some pec =>
      cases h3 : getOptNat l "eval_count" with
      | none => rw [h1, h2, h3] at h; simp at h
      | some ec =>
        rw [h1, h2, h3] at h
        injection h with h
        rw [← h]

theorem parseChatResponse_extra {l : List (String × Json)} {r : ChatResponse}
    (h : parseChatResponse l = some r) :
    r.extra = removeKeys l ["message", "prompt_eval_count", "eval_count"] := by
  unfold parseChatResponse at h
  cases h1 : getOptMessage l "message" with
  | none => rw [h1] at h; simp at h
  | some msg =>
    cases h2 : getOptNat l "prompt_eval_count" with
    | none => rw [h1, h2] at h; simp at h
    | some pec =>
      cases h3 : getOptNat l "eval_count" with
      | none => rw [h1, h2, h3] at h; simp at h
      | some ec =>
        rw [h1, h2, h3] at h
        injection h with h
        rw [← h]

theorem proxySuccessStore_get_self (st : SpanStore) (id : SpanId) (now : Time)
    (pec ec : Option Nat) (sp : Span) (h : st.get id = some sp) :
    (proxySuccessStore st id now pec ec).get id = some (completeWithTokens sp now pec ec) := by
  unfold proxySuccessStore
  rw [h]
  unfold SpanStore.get
  exact alookup_aset_self _ _ _

theorem finalizeGenerate_success (st : SpanStore) (id : SpanId) (now : Time)
    (fields : List (String × Json)) (perr : String) (r : GenerateResponse)
    (h : parseGenerateResponse fields = some r) :
    finalizeGenerate st id now (.successBody (.obj fields)) perr =
      (proxySuccessStore st id now r.prompt_eval_count r.eval_count,
       .ok (.obj (serializeGenerateResponse r))) := by
  unfold finalizeGenerate
  dsimp only [toObj]
  rw [h]

theorem finalizeChat_success (st : SpanStore) (id : SpanId) (now : Time)
    (fields : List (String × Json)) (perr : String) (r : ChatResponse)
    (h : parseChatResponse fields = some r) :
    finalizeChat st id now (.successBody (.obj fields)) perr =
      (proxySuccessStore st id now r.prompt_eval_count r.eval_count,
       .ok (.obj (serializeChatResponse r))) := by
  unfold finalizeChat
  dsimp only [toObj]
  rw [h]

/-- C6 (amended): on a success status with a body that parses, both handlers
store the token counters in the span's metadata, mark it `Completed`, and
return the re-serialized response: every passthrough (extra) field is
preserved verbatim, and the whole body equals the backend body whenever the
typed fields (`response` / canonical `message`, `prompt_eval_count`,
`eval_count`) are explicitly present; absent typed fields are materialized
with defaults, so the body is not in general byte-identical. -/
theorem C6_success_passthrough (st : SpanStore) (greq : GenerateRequest) (creq : ChatRequest)
    (gtr gsp ctr csp : Nat) (t0 t1 : Time) (perr : String)
    (gfields cfields : List (String × Json)) (gr : GenerateResponse) (cr : ChatResponse)
    (hgp : parseGenerateResponse gfields = some gr)
    (hcp : parseChatResponse cfields = some cr) :
    ((proxyGenerate st greq gtr gsp t0 t1 (.successBody (.obj gfields)) perr).2 =
       .ok (.obj (serializeGenerateResponse gr)) ∧
     (proxyGenerate st greq gtr gsp t0 t1 (.successBody (.obj gfields)) perr).1.get gsp =
       some { generateSpan greq gtr gsp t0 with
              status := .completed t0 t1,
              metadata := { model := some greq.model,
                            input_tokens := gr.prompt_eval_count,
                            output_tokens := gr.eval_count } } ∧
     (∀ k, k ≠ "response" → k ≠ "prompt_eval_count" → k ≠ "eval_count" →
       alookup (serializeGenerateResponse gr) k = alookup gfields k) ∧
     (alookup gfields "response" = some (.str gr.response) →
      alookup gfields "prompt_eval_count" = some (optNatJson gr.prompt_eval_count) →
      alookup gfields "eval_count" = some (optNatJson gr.eval_count) →
      ∀ k, alookup (serializeGenerateResponse gr) k = alookup gfields k)) ∧
    ((proxyChat st creq ctr csp t0 t1 (.successBody (.obj cfields)) perr).2 =
       .ok (.obj (serializeChatResponse cr)) ∧
     (proxyChat st creq ctr csp t0 t1 (.successBody (.obj cfields)) perr).1.get csp =
       some { chatSpan creq ctr csp t0 with
              status := .completed t0 t1,
              metadata := { model := some creq.model,
                            input_tokens := cr.prompt_eval_count,
                            output_tokens := cr.eval_count } } ∧
     (∀ k, k ≠ "message" → k ≠ "prompt_eval_count" → k ≠ "eval_count" →
       alookup (serializeChatResponse cr) k = alookup cfields k) ∧
     (alookup cfields "message" = some (optMessageJson cr.message) →
      alookup cfields "prompt_eval_count" = some (optNatJson cr.prompt_eval_count) →
      alookup cfields "eval_count" = some (optNatJson cr.eval_count) →
      ∀ k, alookup (serializeChatResponse cr) k = alookup cfields k)) := by
  have hgextras : ∀ k, k ≠ "response" → k ≠ "prompt_eval_count" → k ≠ "eval_count" →
      alookup (serializeGenerateResponse gr) k = alookup gfields k := by
    intro k h1 h2 h3
    unfold serializeGenerateResponse
    rw [alookup_cons, if_neg (fun h => h1 h.symm), alookup_cons, if_neg (fun h => h2 h.symm),
      alookup_cons, if_neg (fun h => h3 h.symm)]
    rw [parseGenerateResponse_extra hgp]
    exact alookup_removeKeys _ _ _ (by simp [h1, h2, h3])
  have hcextras : ∀ k, k ≠ "message" → k ≠ "prompt_eval_count" → k ≠ "eval_count" →
      alookup (serializeChatResponse cr) k = alookup cfields k := by
    intro k h1 h2 h3
    unfold serializeChatResponse
    rw [alookup_cons, if_neg (fun h => h1 h.symm), alookup_cons, if_neg (fun h => h2 h.symm),
      alookup_cons, if_neg (fun h => h3 h.symm)]
    rw [parseChatResponse_extra hcp]
    exact alookup_removeKeys _ _ _ (by simp [h1, h2, h3])
  constructor
  · refine ⟨?_, ?_, hgextras, ?_⟩
    · unfold proxyGenerate
      rw [finalizeGenerate_success _ _ _ _ _ _ hgp]
    · unfold proxyGenerate
      rw [finalizeGenerate_success _ _ _ _ _ _ hgp]
      have h1 : (st.insert (generateSpan greq gtr gsp t0)).get gsp =
          some (generateSpan greq gtr gsp t0) := insert_get_self st _
      rw [proxySuccessStore_get_self _ _ _ _ _ _ h1]
      rfl
    · intro hr hp he k
      by_cases hk1 : k = "response"
      · subst hk1
        unfold serializeGenerateResponse
        rw [alookup_cons, if_pos rfl, hr]
      · by_cases hk2 : k = "prompt_eval_count"
        · subst hk2
          unfold serializeGenerateResponse
          rw [alookup_cons, if_neg (by decide), alookup_cons, if_pos rfl, hp]
        · by_cases hk3 : k = "eval_count"
          · subst hk3
            unfold serializeGenerateResponse
            rw [alookup_cons, if_neg (by decide), alookup_cons, if_neg (by decide),
              alookup_cons, if_pos rfl, he]
          · exact hgextras k hk1 hk2 hk3
  · refine ⟨?_, ?_, hcextras, ?_⟩
    · unfold proxyChat
      rw [finalizeChat_success _ _ _ _ _ _ hcp]
    · unfold proxyChat
      rw [finalizeChat_success _ _ _ _ _ _ hcp]
      have h1 : (st.insert (chatSpan creq ctr csp t0)).get csp =
          some (chatSpan creq ctr csp t0) := insert_get_self st _
      rw [proxySuccessStore_get_self _ _ _ _ _ _ h1]
      rfl
    · intro hm hp he k
      by_cases hk1 : k = "message"
      · subst hk1
        unfold serializeChatResponse
        rw [alookup_cons, if_pos rfl, hm]
      · by_cases hk2 : k = "prompt_eval_count"
        · subst hk2
          unfold serializeChatResponse
          rw [alookup_cons, if_neg (by decide), alookup_cons, if_pos rfl, hp]
        · by_cases hk3 : k = "eval_count"
          · subst hk3
            unfold serializeChatResponse
            rw [alookup_cons, if_neg (by decide), alookup_cons, if_neg (by decide),
              alookup_cons, if_pos rfl, he]
          · exact hcextras k hk1 hk2 hk3

/-- Request used by the C6 counterexample. -/
def c6Req : GenerateRequest := { model := "llama3", prompt := "hi", stream := none, extra := [] }

/-- Backend body of the C6 counterexample: only a `response` field. -/
def c6Fields : List (String × Json) := [("response", .str "hi")]

/-- C6 as stated is false: for the backend body `{"response":"hi"}` (which
parses), the handler's returned body carries `"prompt_eval_count": null` and
`"eval_count": null` although the backend body has no such fields, so the
returned JSON is not equal to the backend's response body. -/
theorem C6_counterexample :
    (proxyGenerate SpanStore.empty c6Req 0 1 0 1 (.successBody (.obj c6Fields)) "").2 =
      .ok (.obj [("response", .str "hi"), ("prompt_eval_count", .null),
                 ("eval_count", .null)]) ∧
    alookup [("response", Json.str "hi"), ("prompt_eval_count", Json.null),
             ("eval_count", Json.null)] "prompt_eval_count" = some Json.null ∧
    alookup c6Fields "prompt_eval_count" = none ∧
    some Json.null ≠ (none : Option Json) :=
  ⟨rfl, rfl, rfl, by simp⟩

/-- Request used by the C6 witness. -/
def c6wReq : GenerateRequest :=
  { model := "llama3", prompt := "hi", stream := some true, extra := [] }

/-- Chat request used by the C6 witness. -/
def c6wCReq : ChatRequest :=
  { model := "llama3", messages := [{ role := "user", content := "hi" }], stream := none,
    extra := [] }

/-- Backend generate body of the C6 witness: all typed fields present plus a
passthrough field. -/
def c6wGenFields : List (String × Json) :=
  [("response", .str "ok"), ("prompt_eval_count", .num 10), ("eval_count", .num 5),
   ("total_duration", .num 42)]

/-- Parsed form of `c6wGenFields`. -/
def c6wGenResp : GenerateResponse :=
  { response := "ok", prompt_eval_count := some 10, eval_count := some 5,
    extra := [("total_duration", .num 42)] }

/-- Backend chat body of the C6 witness. -/
def c6wChatFields : List (String × Json) :=
  [("message", .obj [("role", .str "assistant"), ("content", .str "hey")]),
   ("prompt_eval_count", .null), ("eval_count", .num 2)]

/-- Parsed form of `c6wChatFields`. -/
def c6wChatResp : ChatResponse :=
  { message := some { role := "assistant", content := "hey" },
    prompt_eval_count := none, eval_count := some 2, extra := [] }

/-- Witness for the amended C6 at concrete parseable bodies. -/
theorem C6_success_passthrough_witness :
    parseGenerateResponse c6wGenFields = some c6wGenResp ∧
    parseChatResponse c6wChatFields = some c6wChatResp ∧
    (proxyGenerate SpanStore.empty c6wReq 0 1 0 1
        (.successBody (.obj c6wGenFields)) "").2 =
      .ok (.obj (serializeGenerateResponse c6wGenResp)) ∧
    (proxyGenerate SpanStore.empty c6wReq 0 1 0 1
        (.successBody (.obj c6wGenFields)) "").1.get 1 =
      some { generateSpan c6wReq 0 1 0 with
             status := .completed 0 1,
             metadata := { model := some "llama3",
                           input_tokens := some 10, output_tokens := some 5 } } ∧
    (proxyChat SpanStore.empty c6wCReq 2 3 0 1
        (.successBody (.obj c6wChatFields)) "").2 =
      .ok (.obj (serializeChatResponse c6wChatResp)) ∧
    (proxyChat SpanStore.empty c6wCReq 2 3 0 1
        (.successBody (.obj c6wChatFields)) "").1.get 3 =
      some { chatSpan c6wCReq 2 3 0 with
             status := .completed 0 1,
             metadata := { model := some "llama3",
                           input_tokens := none, output_tokens := some 2 } } := by
  have h := C6_success_passthrough SpanStore.empty c6wReq c6wCReq 0 1 2 3 0 1 ""
    c6wGenFields c6wChatFields c6wGenResp c6wChatResp rfl rfl
  exact ⟨rfl, rfl, h.1.1, h.1.2.1, h.2.1, h.2.2.1⟩
